import Mathlib

/-!
Verification of the image-colorization service (FastAPI backend with a U-Net
colorization engine) against its natural-language specification.

The embedding below models, from the source:
  * `backend/main.py` — the job orchestrator: the `/api/colorize` submit
    endpoint's validation and artifact-path computation, the
    `/api/progress/{file_id}` and `/api/download/{file_id}` endpoints, and the
    `process_colorization` background task;
  * `backend/models/unet_model.py` — the `UNet` architecture at the level of
    tensor shapes, the `Up.forward` padding policy, `UNetColorizer.__init__`
    weight loading, `preprocess_image` and the `colorize` pipeline;
  * `backend/memory_config.py` — `MemoryOptimizer.clear_memory` and
    `process_image_optimized`, as event traces.

The filesystem is modelled as an existence oracle `String → Bool` (the only
operation the endpoints perform is an existence check), and, where `..`
resolution matters, as a set of resolved component lists.
-/

/-! ## Python `pathlib.Path(...).suffix`

`main.py` computes artifact names with `Path(file.filename).suffix`.
CPython's `pathlib` returns `name[i:]` where `i = name.rfind('.')`,
provided `0 < i < len(name) - 1`, and `""` otherwise, with `name` the last
path component. -/

/-- Split a character list on a separator, keeping empty pieces, as Python's
`str.split(sep)` does. -/
def splitChar (sep : Char) : List Char → List (List Char)
  | [] => [[]]
  | c :: rest =>
      let r := splitChar sep rest
      if c = sep then [] :: r
      else (c :: r.headD []) :: r.tail

/-- Last `/`-separated component of a path string, as `pathlib.Path(...).name`. -/
def pathNameChars (s : String) : List Char :=
  (splitChar '/' s.toList).getLastD []

/-- Index of the last `.` in a character list, if any (Python `str.rfind`). -/
def lastDotIdx (cs : List Char) : Option Nat :=
  (List.range cs.length).reverse.find? (fun i => cs.getD i ' ' = '.')

/-- `pathlib.Path(filename).suffix`: the extension of the last component,
including the leading dot; empty when there is no dot, the dot is leading,
or the dot is trailing. -/
def pySuffix (filename : String) : String :=
  let cs := pathNameChars filename
  match lastDotIdx cs with
  | none => ""
  | some i => if 0 < i ∧ i < cs.length - 1 then String.mk (cs.drop i) else ""

/-! ## Artifact locations (`main.py` lines 38–41, 116–117, 150, 169) -/

/-- `OUTPUT_DIR = Path("outputs")` (`main.py` line 39). -/
def OUTPUT_DIR : String := "outputs"

/-- `UPLOAD_DIR = Path("uploads")` (`main.py` line 38). -/
def UPLOAD_DIR : String := "uploads"

/-- `input_path = UPLOAD_DIR / f"{file_id}_input{Path(file.filename).suffix}"`
(`main.py` line 116). -/
def submit_input_path (file_id filename : String) : String :=
  UPLOAD_DIR ++ "/" ++ file_id ++ "_input" ++ pySuffix filename

/-- `output_path = OUTPUT_DIR / f"{file_id}_output{Path(file.filename).suffix}"`
(`main.py` line 117): the location the background task writes to. -/
def submit_output_path (file_id filename : String) : String :=
  OUTPUT_DIR ++ "/" ++ file_id ++ "_output" ++ pySuffix filename

/-- `output_path = OUTPUT_DIR / f"{file_id}_output.jpg"`: the location both
`get_progress` (`main.py` line 150) and `download_result` (line 169) check. -/
def checked_output_path (file_id : String) : String :=
  OUTPUT_DIR ++ "/" ++ file_id ++ "_output.jpg"

/-! ## Submit-endpoint validation (`main.py` lines 102–111) -/

/-- Python's `str.startswith` (`file.content_type.startswith("image/")`,
`main.py` line 103). -/
def pyStartsWith (s pre : String) : Bool :=
  pre.toList.isPrefixOf s.toList

/-- Outcome of the `/api/colorize` request handler, reduced to the HTTP status
code it answers with (200 on the success path that schedules the job). -/
def colorize_endpoint_status (content_type : String) (size : Nat)
    (model_loaded : Bool) : Nat :=
  if ¬ pyStartsWith content_type "image/" then 400
  else if size > 10 * 1024 * 1024 then 400
  else if ¬ model_loaded then 503
  else 200

/-! ## Progress and download endpoints (`main.py` lines 145–178) -/

/-- Externally observable job status. -/
inductive JobStatus where
  | processing
  | completed
deriving DecidableEq, Repr

/-- Body of the `get_progress` response: status and progress value. -/
structure ProgressResponse where
  status : JobStatus
  progress : Nat
deriving DecidableEq, Repr

/-- `get_progress` (`main.py` lines 145–164): checks whether
`outputs/{file_id}_output.jpg` exists; if so answers `completed`, progress 100;
otherwise `processing` with the mock progress 50. Always answers (HTTP 200). -/
def get_progress (fs : String → Bool) (file_id : String) : ProgressResponse :=
  if fs (checked_output_path file_id) then ⟨JobStatus.completed, 100⟩
  else ⟨JobStatus.processing, 50⟩

/-- `download_result` (`main.py` lines 166–178): 404 when
`outputs/{file_id}_output.jpg` does not exist, otherwise serves that file. -/
def download_result (fs : String → Bool) (file_id : String) :
    Except Nat String :=
  if fs (checked_output_path file_id) then .ok (checked_output_path file_id)
  else .error 404

/-! ## Background task (`main.py` lines 180–194)

`process_colorization` awaits `process_image` then `save_image` inside a
`try`, and on any exception only logs; nothing propagates and no file is
written on the failing path. The filesystem is a list of existing paths; the
colorization work's outcome is passed in as an `Except` (it is the value of
`process_image`, which re-raises any `colorize` error), and `save_ok` models
whether `cv2.imwrite` inside `save_image` succeeds. -/

def process_colorization (fs : List String) (log : List String)
    (file_id output_path : String) (work : Except String Unit)
    (save_ok : Bool) : List String × List String :=
  match work with
  | .error e =>
      (fs, log ++ ["Error in background colorization for " ++ file_id ++ ": " ++ e])
  | .ok _ =>
      if save_ok then
        (output_path :: fs, log ++ ["Colorization completed for " ++ file_id])
      else
        (fs, log ++ ["Error in background colorization for " ++ file_id ++ ": save failed"])

/-- Existence oracle of a literal-path filesystem: a path exists iff it is
listed verbatim. -/
def fsContains (fs : List String) : String → Bool :=
  fun p => fs.contains p

/-! ## Path resolution (for the traversal claim)

The OS resolves `..` components when a path string is checked for existence.
A filesystem is a set of resolved component lists; `resolvePath` normalizes a
path string the way the kernel does for a path containing `..` and `.`. -/

/-- Normalize path components with a stack: `..` pops, `.` and empty components
are dropped. -/
def resolveAux : List String → List String → List String
  | stack, [] => stack.reverse
  | stack, c :: rest =>
      if c = ".." then resolveAux stack.tail rest
      else if c = "." ∨ c = "" then resolveAux stack rest
      else resolveAux (c :: stack) rest

/-- Resolve a relative path string to its normalized component list. -/
def resolvePath (p : String) : List String :=
  resolveAux [] ((splitChar '/' p.toList).map String.mk)

/-- Existence oracle of a resolving filesystem: the path string is normalized
before lookup, as the OS does. -/
def realFS (files : List (List String)) : String → Bool :=
  fun p => files.contains (resolvePath p)

/-- A path string stays inside directory `dir` iff its first resolved
component is `dir`. -/
def withinDir (dir : String) (p : String) : Bool :=
  match resolvePath p with
  | [] => false
  | d :: _ => d = dir

/-! ## Colorizer construction (`unet_model.py` lines 117–132)

`UNetColorizer.__init__` evaluates `model_path and torch.load(model_path, ...)`
as the condition of an `if` that sits OUTSIDE any `try`; only the body of the
`if` (a second `torch.load` followed by `load_state_dict`) is wrapped in
`try/except`. `torch.load` and `load_state_dict` are library calls, modelled
as an environment of fallible functions; a state dict carries its Python
truthiness (a loaded empty dict is falsy and skips the body). -/

/-- Result of `torch.load`: a state dict with its Python truthiness. -/
structure StateDict where
  nonempty : Bool
deriving DecidableEq, Repr

/-- The torch library surface `__init__` calls. -/
structure TorchEnv where
  load : String → Except String StateDict
  loadStateDict : StateDict → Except String Unit

/-- Constructed colorizer state: whether pre-trained weights were installed
(otherwise the model keeps its random initialization). -/
structure ColorizerState where
  pretrainedLoaded : Bool
deriving DecidableEq, Repr

/-- `UNetColorizer.__init__` (`unet_model.py` lines 117–132). `model_path`
falsy (absent or empty) skips loading; a raising `torch.load` in the `if`
condition propagates out of the constructor; failures of the second
`torch.load` or of `load_state_dict` inside the `try` are caught and logged. -/
def UNetColorizer_init (env : TorchEnv) (model_path : Option String) :
    Except String ColorizerState :=
  match model_path with
  | none => .ok ⟨false⟩
  | some p =>
      if p = "" then .ok ⟨false⟩
      else
        match env.load p with
        | .error e => .error e
        | .ok sd =>
            if sd.nonempty then
              match env.load p with
              | .error _ => .ok ⟨false⟩
              | .ok sd2 =>
                  match env.loadStateDict sd2 with
                  | .ok _ => .ok ⟨true⟩
                  | .error _ => .ok ⟨false⟩
            else .ok ⟨false⟩

/-- `startup_event` (`main.py` lines 50–59): constructs `UNetColorizer()` with
no arguments; any exception is caught and leaves the global `colorizer` at
`None`, the state the submit endpoint polls before accepting jobs. -/
def startup_event (env : TorchEnv) : Option ColorizerState :=
  match UNetColorizer_init env none with
  | .ok c => some c
  | .error _ => none

/-- The submit endpoint's availability poll (`main.py` line 110):
`colorizer is None` means unavailable. -/
def engine_available (colorizer : Option ColorizerState) : Bool :=
  colorizer.isSome

/-! ## UNet shape semantics (`unet_model.py` lines 12–112)

Tensor shapes `(channels, height, width)` of one batch element; every layer
of the network preserves or transforms the shape deterministically, and the
concatenation of a skip connection requires equal spatial sizes, so a shape
mismatch surfaces as `none`. The constructor is called with
`UNet(n_channels=1, n_classes=3, bilinear=False)` (`unet_model.py` line 119),
so `Up` uses `ConvTranspose2d(kernel_size=2, stride=2)`. -/

structure Shape where
  c : Nat
  h : Nat
  w : Nat
deriving DecidableEq, Repr

/-- Shape of `nn.Conv2d(cin, cout, kernel_size=3, padding=1)`: spatial size
preserved; requires matching input channels and a nonempty spatial extent. -/
def conv3_shape (cin cout : Nat) (s : Shape) : Option Shape :=
  if s.c = cin ∧ 1 ≤ s.h ∧ 1 ≤ s.w then some ⟨cout, s.h, s.w⟩ else none

/-- Shape of `DoubleConv` (`unet_model.py` lines 12–29): two 3×3 `same`
convolutions `cin → mid → cout` (batch norm and ReLU preserve shape). -/
def doubleConv_shape (cin mid cout : Nat) (s : Shape) : Option Shape :=
  (conv3_shape cin mid s).bind (conv3_shape mid cout)

/-- Shape of `nn.MaxPool2d(2)`: floor-halves both spatial dimensions;
PyTorch rejects an output size of zero. -/
def maxpool2_shape (s : Shape) : Option Shape :=
  if 2 ≤ s.h ∧ 2 ≤ s.w then some ⟨s.c, s.h / 2, s.w / 2⟩ else none

/-- Shape of `Down` (`unet_model.py` lines 31–42): maxpool then
`DoubleConv(cin, cout)` (its `mid_channels` defaults to `cout`). -/
def down_shape (cin cout : Nat) (s : Shape) : Option Shape :=
  (maxpool2_shape s).bind (doubleConv_shape cin cout cout)

/-- Shape of `nn.ConvTranspose2d(cin, cin // 2, kernel_size=2, stride=2)`
(`unet_model.py` line 54): doubles both spatial dimensions, halves channels. -/
def convT2_shape (cin : Nat) (s : Shape) : Option Shape :=
  if s.c = cin ∧ 1 ≤ s.h ∧ 1 ≤ s.w then some ⟨cin / 2, 2 * s.h, 2 * s.w⟩ else none

/-- The two pad amounts `(diff // 2, diff - diff // 2)` of `Up.forward`
(`unet_model.py` lines 64–65); `//` is Python floor division. -/
def padPair (d : Int) : Int × Int :=
  (d.fdiv 2, d - d.fdiv 2)

/-- Shape of `F.pad(x1, [diffX // 2, diffX - diffX // 2, diffY // 2,
diffY - diffY // 2])`: each spatial dimension grows by the sum of its two pad
amounts (negative amounts crop, as in PyTorch). -/
def pad_shape (s : Shape) (dX dY : Int) : Shape :=
  ⟨s.c, ((s.h : Int) + (padPair dY).1 + (padPair dY).2).toNat,
        ((s.w : Int) + (padPair dX).1 + (padPair dX).2).toNat⟩

/-- Shape of `torch.cat([x2, x1], dim=1)`: requires identical spatial sizes,
sums channels. -/
def cat_shape (s2 s1 : Shape) : Option Shape :=
  if s1.h = s2.h ∧ s1.w = s2.w then some ⟨s2.c + s1.c, s2.h, s2.w⟩ else none

/-- Shape of `Up.forward` (`unet_model.py` lines 57–68) with
`bilinear=False`: transpose-convolve `x1` up, pad it by the spatial
difference to `x2`, concatenate, then `DoubleConv(cin, cout)`. -/
def up_shape (cin cout : Nat) (x1 x2 : Shape) : Option Shape :=
  (convT2_shape cin x1).bind fun x1u =>
    let x1p := pad_shape x1u ((x2.w : Int) - (x1u.w : Int))
                            ((x2.h : Int) - (x1u.h : Int))
    (cat_shape x2 x1p).bind (doubleConv_shape cin cout cout)

/-- Shape of `OutConv` (`unet_model.py` lines 70–78): 1×1 convolution,
spatial size preserved. -/
def outConv_shape (cin cout : Nat) (s : Shape) : Option Shape :=
  if s.c = cin ∧ 1 ≤ s.h ∧ 1 ≤ s.w then some ⟨cout, s.h, s.w⟩ else none

/-- Shape of `UNet.forward` (`unet_model.py` lines 101–112) as constructed by
`UNetColorizer` — `n_channels=1`, `n_classes=3`, `bilinear=False`, so
`factor = 1` and the stage widths are 64/128/256/512/1024. -/
def unet_forward_shape (s : Shape) : Option Shape :=
  (doubleConv_shape 1 64 64 s).bind fun x1 =>
  (down_shape 64 128 x1).bind fun x2 =>
  (down_shape 128 256 x2).bind fun x3 =>
  (down_shape 256 512 x3).bind fun x4 =>
  (down_shape 512 1024 x4).bind fun x5 =>
  (up_shape 1024 512 x5 x4).bind fun u1 =>
  (up_shape 512 256 u1 x3).bind fun u2 =>
  (up_shape 256 128 u2 x2).bind fun u3 =>
  (up_shape 128 64 u3 x1).bind fun u4 =>
  outConv_shape 64 3 u4

/-! ## Tensor Codec (`unet_model.py` lines 134–166)

`preprocess_image` loads with `cv2.imread(path, cv2.IMREAD_GRAYSCALE)`
(`None` on an unreadable or invalid file), resizes with
`cv2.resize(image, (256, 256))` — no `interpolation` argument, so OpenCV's
default applies — divides by 255 as `float32`, and unsqueezes twice. The
grayscale image is a pixel grid of 8-bit values; `cv2.resize` is a library
call, modelled so that its metadata (target size and the interpolation flag
actually used) is exact, while pixel values are produced by index resampling,
which — like every cv2 interpolation mode, each a convex combination of
source pixels — stays within the source value range. -/

/-- OpenCV interpolation flags relevant here. -/
inductive Interp where
  | linear
  | area
  | nearest
  | cubic
deriving DecidableEq, Repr

/-- OpenCV's default `interpolation` argument for `cv2.resize` is
`cv2.INTER_LINEAR` (bilinear). -/
def cv2_resize_default : Interp := Interp.linear

/-- A single-channel 8-bit image as `cv2.imread(..., IMREAD_GRAYSCALE)`
returns it: height, width, and a pixel grid of values in `0..255`. -/
structure GrayImage where
  h : Nat
  w : Nat
  pix : Nat → Nat → Nat

/-- Library model of `cv2.resize(img, size, interpolation := INTER_LINEAR)`;
`size` is `(width, height)`. Returns the resized image together with the
interpolation flag that was used. -/
def cv2_resize (img : GrayImage) (size : Nat × Nat)
    (interp : Interp := cv2_resize_default) : GrayImage × Interp :=
  (⟨size.2, size.1, fun i j => img.pix (i * img.h / size.2) (j * img.w / size.1)⟩,
   interp)

/-- Numeric dtype of a tensor or buffer. -/
inductive DType where
  | float32
  | uint8
deriving DecidableEq, Repr

/-- The tensor `preprocess_image` returns: shape `[batch, channels, h, w]`,
dtype, normalized pixel values, and the interpolation flag the resize step
used (recorded for auditing the preprocessing pipeline). -/
structure InputTensor where
  batch : Nat
  channels : Nat
  h : Nat
  w : Nat
  dtype : DType
  val : Nat → Nat → ℚ
  resizeInterp : Interp

/-- `UNetColorizer.preprocess_image` (`unet_model.py` lines 134–151). The
argument is the result of `cv2.imread`: `none` when the file cannot be read
or is not a valid raster image, in which case the code raises `ValueError`.
`cv2.resize` raises on an empty source image and the exception propagates. -/
def preprocess_image (loaded : Option GrayImage) : Except String InputTensor :=
  match loaded with
  | none => .error "Could not load image"
  | some img =>
      if img.h = 0 ∨ img.w = 0 then .error "cv2.resize: empty source image"
      else
        let r := cv2_resize img (256, 256)
        .ok { batch := 1, channels := 1, h := 256, w := 256,
              dtype := DType.float32,
              val := fun i j => ((r.1.pix i j : ℚ) / 255),
              resizeInterp := r.2 }

/-- `UNetColorizer.postprocess_output` (`unet_model.py` lines 153–166) at the
shape level: squeeze the batch dimension, transpose `(C, H, W)` to
`(H, W, C)`, and cast to `uint8` after the affine map and clip. -/
def postprocess_output_shape (s : Shape) : Nat × Nat × Nat × DType :=
  (s.h, s.w, s.c, DType.uint8)

/-- `UNetColorizer.colorize` (`unet_model.py` lines 168–180) at the shape
level: preprocess, run the UNet forward pass, postprocess. An unreadable
input or a shape mismatch inside the network surfaces as an error. -/
def colorize_shape (loaded : Option GrayImage) :
    Except String (Nat × Nat × Nat × DType) :=
  match preprocess_image loaded with
  | .error e => .error e
  | .ok t =>
      match unet_forward_shape ⟨t.channels, t.h, t.w⟩ with
      | none => .error "shape mismatch in forward pass"
      | some s => .ok (postprocess_output_shape s)

/-! ## Resource Governor (`memory_config.py` lines 57–61, 90–116) and the
`colorize` call sequence (`unet_model.py` lines 168–180)

Event traces record which operations each function performs, in order. -/

/-- Operations observable in the inference path. -/
inductive MemEv where
  | clearMemory
  | toDevice
  | preprocess
  | inference
  | postprocess
deriving DecidableEq, Repr

/-- The sequence of operations `UNetColorizer.colorize` performs
(`unet_model.py` lines 168–180): preprocess, forward pass, postprocess —
there is no call into `MemoryOptimizer` or any other memory-release hook. -/
def colorize_events : List MemEv :=
  [MemEv.preprocess, MemEv.inference, MemEv.postprocess]

/-- `MemoryOptimizer.clear_memory` (`memory_config.py` lines 57–61):
`gc.collect()` always, `torch.cuda.empty_cache()` on a CUDA device. -/
def clear_memory_events (device : String) : List MemEv :=
  [MemEv.clearMemory] ++ (if device = "cuda" then [MemEv.clearMemory] else [])

/-- `MemoryOptimizer.process_image_optimized` (`memory_config.py` lines
90–116): clears memory, moves the tensor to the device, runs inference under
`no_grad`, clears memory again, and returns the model's output — the value
returned is exactly the model applied to the (batch-completed) input, so the
memory-release cycle does not alter the result. `dim` and `unsqueeze0` model
`tensor.dim()` and `tensor.unsqueeze(0)` of the opaque tensor type. -/
def process_image_optimized {α : Type} (dim : α → Nat) (unsqueeze0 : α → α)
    (model : α → α) (t : α) : α × List MemEv :=
  let t' := if dim t = 3 then unsqueeze0 t else t
  (model t',
   [MemEv.clearMemory, MemEv.toDevice, MemEv.inference, MemEv.clearMemory])

/-! ## Helper lemmas -/

/-- The two pad amounts of `Up.forward` always sum to the full difference. -/
theorem padPair_sum (d : Int) : (padPair d).1 + (padPair d).2 = d := by
  have hfe : d.fdiv 2 = d / 2 := Int.fdiv_eq_ediv d (by norm_num)
  simp only [padPair, hfe]; omega

/-- `F.pad` with the `Up.forward` amounts makes the padded tensor exactly the
target spatial size. -/
theorem pad_shape_to (c hh ww H W : Nat) :
    pad_shape ⟨c, hh, ww⟩ ((W : Int) - (ww : Int)) ((H : Int) - (hh : Int)) = ⟨c, H, W⟩ := by
  simp only [pad_shape, add_assoc, padPair_sum]
  congr 1 <;> omega

/-- `DoubleConv` preserves nonempty spatial sizes and maps `cin` to `cout`. -/
theorem doubleConv_shape_eval (cin mid cout c hh ww : Nat) (hc : c = cin)
    (h1 : 1 ≤ hh) (w1 : 1 ≤ ww) :
    doubleConv_shape cin mid cout ⟨c, hh, ww⟩ = some ⟨cout, hh, ww⟩ := by
  simp [doubleConv_shape, conv3_shape, hc, h1, w1]

/-- `Down` floor-halves spatial sizes. -/
theorem down_shape_eval (cin cout c hh ww : Nat) (hc : c = cin)
    (h2 : 2 ≤ hh) (w2 : 2 ≤ ww) :
    down_shape cin cout ⟨c, hh, ww⟩ = some ⟨cout, hh / 2, ww / 2⟩ := by
  have hp : maxpool2_shape ⟨c, hh, ww⟩ = some ⟨c, hh / 2, ww / 2⟩ := by
    simp [maxpool2_shape, h2, w2]
  rw [down_shape, hp, Option.some_bind]
  exact doubleConv_shape_eval cin cout cout c (hh / 2) (ww / 2) hc (by omega) (by omega)

/-- `Up.forward` always produces exactly the skip partner's spatial size:
upsampling, padding by the difference, concatenation and the double
convolution go through with no mismatch. -/
theorem up_shape_eval (cin cout c1 h1 w1 c2 h2 w2 : Nat) (hc1 : c1 = cin)
    (hh1 : 1 ≤ h1) (hw1 : 1 ≤ w1) (hc2 : c2 + cin / 2 = cin)
    (hh2 : 1 ≤ h2) (hw2 : 1 ≤ w2) :
    up_shape cin cout ⟨c1, h1, w1⟩ ⟨c2, h2, w2⟩ = some ⟨cout, h2, w2⟩ := by
  have hc : convT2_shape cin ⟨c1, h1, w1⟩ = some ⟨cin / 2, 2 * h1, 2 * w1⟩ := by
    simp [convT2_shape, hc1, hh1, hw1]
  rw [up_shape, hc, Option.some_bind]
  show (cat_shape ⟨c2, h2, w2⟩ (pad_shape ⟨cin / 2, 2 * h1, 2 * w1⟩
      ((w2 : Int) - ((2 * w1 : Nat) : Int))
      ((h2 : Int) - ((2 * h1 : Nat) : Int)))).bind (doubleConv_shape cin cout cout)
      = some ⟨cout, h2, w2⟩
  rw [pad_shape_to]
  have hcat : cat_shape ⟨c2, h2, w2⟩ ⟨cin / 2, h2, w2⟩ = some ⟨cin, h2, w2⟩ := by
    simp [cat_shape, hc2]
  rw [hcat, Option.some_bind]
  exact doubleConv_shape_eval cin cout cout cin h2 w2 rfl hh2 hw2

/-- For any input at least 16×16, the full forward pass succeeds — every
skip-connection concatenation sees identical spatial sizes — and returns a
3-channel tensor of the input's spatial size. -/
theorem unet_forward_shape_eval (h w : Nat) (hh : 16 ≤ h) (hw : 16 ≤ w) :
    unet_forward_shape ⟨1, h, w⟩ = some ⟨3, h, w⟩ := by
  rw [unet_forward_shape]
  rw [doubleConv_shape_eval 1 64 64 1 h w rfl (by omega) (by omega)]
  simp only [Option.some_bind]
  rw [down_shape_eval 64 128 64 h w rfl (by omega) (by omega)]
  simp only [Option.some_bind]
  rw [down_shape_eval 128 256 128 (h / 2) (w / 2) rfl (by omega) (by omega)]
  simp only [Option.some_bind]
  rw [down_shape_eval 256 512 256 (h / 2 / 2) (w / 2 / 2) rfl (by omega) (by omega)]
  simp only [Option.some_bind]
  rw [down_shape_eval 512 1024 512 (h / 2 / 2 / 2) (w / 2 / 2 / 2) rfl (by omega) (by omega)]
  simp only [Option.some_bind]
  rw [up_shape_eval 1024 512 1024 (h / 2 / 2 / 2 / 2) (w / 2 / 2 / 2 / 2) 512
      (h / 2 / 2 / 2) (w / 2 / 2 / 2) rfl (by omega) (by omega) (by norm_num) (by omega) (by omega)]
  simp only [Option.some_bind]
  rw [up_shape_eval 512 256 512 (h / 2 / 2 / 2) (w / 2 / 2 / 2) 256
      (h / 2 / 2) (w / 2 / 2) rfl (by omega) (by omega) (by norm_num) (by omega) (by omega)]
  simp only [Option.some_bind]
  rw [up_shape_eval 256 128 256 (h / 2 / 2) (w / 2 / 2) 128
      (h / 2) (w / 2) rfl (by omega) (by omega) (by norm_num) (by omega) (by omega)]
  simp only [Option.some_bind]
  rw [up_shape_eval 128 64 128 (h / 2) (w / 2) 64 h w rfl (by omega) (by omega)
      (by norm_num) (by omega) (by omega)]
  simp only [Option.some_bind]
  simp [outConv_shape]
  omega

/-! ## Claim theorems -/

/-- Claim C1, counterexample: for the job id `j` with input filename
`img.png`, the successfully finished background work materializes the output
at `outputs/j_output.png` — the suffix of the input's filename, not the fixed
`.jpg` extension — which differs from the location status and fetch check, so
`status` still answers `PROCESSING` and `fetch` still fails with 404 after
the work completed. This refutes the claim that the output artifact is
materialized at `{job_id}_output.jpg` regardless of the input's original
format with `status`/`fetch` succeeding afterwards. -/
theorem c1_fixed_extension_counterexample :
    (process_colorization [] [] "j" (submit_output_path "j" "img.png") (.ok ()) true).1
        = ["outputs/j_output.png"]
    ∧ submit_output_path "j" "img.png" ≠ checked_output_path "j"
    ∧ get_progress
        (fsContains (process_colorization [] [] "j" (submit_output_path "j" "img.png") (.ok ()) true).1)
        "j" = ⟨JobStatus.processing, 50⟩
    ∧ download_result
        (fsContains (process_colorization [] [] "j" (submit_output_path "j" "img.png") (.ok ()) true).1)
        "j" = .error 404 :=
  ⟨by decide, by decide, by decide, rfl⟩

/-- Claim C1, amended: the scheduled work materializes the output artifact at
`{job_id}_output{suffix of the input filename}`, not at a fixed-extension
location; `status` and `fetch` hard-code the `.jpg` extension, so after the
scheduled work finishes successfully, `status(job_id)` returns `COMPLETED`
and `fetch(job_id)` succeeds exactly when the input filename's suffix is
`.jpg` (as here assumed). -/
theorem c1_output_location_amended (file_id filename : String) (fs log : List String)
    (hjpg : pySuffix filename = ".jpg") :
    submit_output_path file_id filename = checked_output_path file_id
    ∧ get_progress
        (fsContains (process_colorization fs log file_id
          (submit_output_path file_id filename) (.ok ()) true).1) file_id
        = ⟨JobStatus.completed, 100⟩
    ∧ download_result
        (fsContains (process_colorization fs log file_id
          (submit_output_path file_id filename) (.ok ()) true).1) file_id
        = .ok (checked_output_path file_id) := by
  have hlit : ("_output" : String) ++ ".jpg" = "_output.jpg" := by decide
  have hpath : submit_output_path file_id filename = checked_output_path file_id := by
    rw [submit_output_path, checked_output_path, hjpg, String.append_assoc, hlit]
  have hmem : fsContains (process_colorization fs log file_id
      (submit_output_path file_id filename) (.ok ()) true).1
      (checked_output_path file_id) = true := by
    simp [process_colorization, fsContains, hpath]
  exact ⟨hpath, by simp [get_progress, hmem], by simp [download_result, hmem]⟩

/-- Witness for the amended C1 at the concrete job `j` with input filename
`photo.jpg`. -/
theorem c1_output_location_amended_witness :
    pySuffix "photo.jpg" = ".jpg"
    ∧ (submit_output_path "j" "photo.jpg" = checked_output_path "j"
    ∧ get_progress
        (fsContains (process_colorization [] [] "j"
          (submit_output_path "j" "photo.jpg") (.ok ()) true).1) "j"
        = ⟨JobStatus.completed, 100⟩
    ∧ download_result
        (fsContains (process_colorization [] [] "j"
          (submit_output_path "j" "photo.jpg") (.ok ()) true).1) "j"
        = .ok (checked_output_path "j")) :=
  ⟨by decide, c1_output_location_amended "j" "photo.jpg" [] [] (by decide)⟩

/-- Claim C2, counterexample: with a torch environment whose `torch.load`
raises, constructing `UNetColorizer` with a weights location raises — the
`torch.load` in the `if` condition sits outside the `try`, so a failing
weights load propagates out of the constructor instead of leaving a
constructed, degraded Colorizer. -/
theorem c2_construction_counterexample :
    UNetColorizer_init
      ⟨fun _ => .error "unreadable weights file", fun _ => .ok ()⟩
      (some "model.pth")
      = .error "unreadable weights file" := rfl

/-- Claim C2, amended: construction with no weights location always completes
(with untrained weights — the engine is then treated as available, not
unavailable); if `torch.load` itself raises, the exception propagates out of
construction (only a later `load_state_dict` failure is caught inside it);
the startup handler constructs with no location, so it always produces an
available engine, and it is that handler — not the constructor — that would
catch a construction error and leave the `None` state the submit endpoint
polls before accepting jobs. -/
theorem c2_construction_amended (env : TorchEnv) :
    UNetColorizer_init env none = .ok ⟨false⟩
    ∧ (∀ p e, p ≠ "" → env.load p = .error e →
        UNetColorizer_init env (some p) = .error e)
    ∧ (∀ p sd, p ≠ "" → env.load p = .ok sd →
        ∃ c, UNetColorizer_init env (some p) = .ok c)
    ∧ startup_event env = some ⟨false⟩
    ∧ engine_available (startup_event env) = true := by
  refine ⟨rfl, ?_, ?_, rfl, rfl⟩
  · intro p e hp he
    simp [UNetColorizer_init, hp, he]
  · intro p sd hp hsd
    by_cases hne : sd.nonempty
    · cases hls : env.loadStateDict sd with
      | ok u => exact ⟨⟨true⟩, by simp [UNetColorizer_init, hp, hsd, hne, hls]⟩
      | error e => exact ⟨⟨false⟩, by simp [UNetColorizer_init, hp, hsd, hne, hls]⟩
    · exact ⟨⟨false⟩, by simp [UNetColorizer_init, hp, hsd, hne]⟩

/-- Witness for the amended C2 at a concrete failing environment and weights
path. -/
theorem c2_construction_amended_witness :
    ("model.pth" : String) ≠ ""
    ∧ (⟨fun _ => .error "boom", fun _ => .ok ()⟩ : TorchEnv).load "model.pth"
        = .error "boom"
    ∧ UNetColorizer_init ⟨fun _ => .error "boom", fun _ => .ok ()⟩ (some "model.pth")
        = .error "boom" :=
  ⟨by decide, rfl,
   (c2_construction_amended ⟨fun _ => .error "boom", fun _ => .ok ()⟩).2.1
     "model.pth" "boom" (by decide) rfl⟩

/-- Claim C3, counterexample: a payload with content type `text/plain`
submitted while the engine is unavailable is answered 400, not 503 — the
content-type and size validations run before the availability check, so an
unavailable engine does NOT yield 503 for every payload. -/
theorem c3_validation_counterexample :
    colorize_endpoint_status "text/plain" 0 false = 400
    ∧ colorize_endpoint_status "image/png" (10 * 1024 * 1024 + 1) false = 400
    ∧ (400 : Nat) ≠ 503 :=
  ⟨by decide, by decide, by decide⟩

/-- Claim C3, amended: submit returns 400 when the upload's content type is
not `image/*` (even when the engine is unavailable), returns 400 when the
upload exceeds 10 MiB, and returns 503 for payloads that pass both
validations when the engine failed to load — validation errors take
precedence over the 503. -/
theorem c3_validation_amended (content_type : String) (size : Nat) (loaded : Bool) :
    (pyStartsWith content_type "image/" = false →
      colorize_endpoint_status content_type size loaded = 400)
    ∧ (size > 10 * 1024 * 1024 →
      colorize_endpoint_status content_type size loaded = 400)
    ∧ (pyStartsWith content_type "image/" = true → size ≤ 10 * 1024 * 1024 →
      loaded = false → colorize_endpoint_status content_type size loaded = 503) := by
  refine ⟨?_, ?_, ?_⟩
  · intro h; simp [colorize_endpoint_status, h]
  · intro h
    by_cases hct : pyStartsWith content_type "image/"
    · simp [colorize_endpoint_status, hct, h]
    · simp [colorize_endpoint_status, hct]
  · intro hct hsz hld
    simp [colorize_endpoint_status, hct, hld, Nat.not_lt.mpr hsz]

/-- Witness for the amended C3 at concrete payloads. -/
theorem c3_validation_amended_witness :
    (pyStartsWith "text/plain" "image/" = false
      → colorize_endpoint_status "text/plain" 0 false = 400)
    ∧ pyStartsWith "text/plain" "image/" = false
    ∧ pyStartsWith "image/png" "image/" = true
    ∧ ((0 : Nat) ≤ 10 * 1024 * 1024)
    ∧ colorize_endpoint_status "image/png" 0 false = 503 :=
  ⟨(c3_validation_amended "text/plain" 0 false).1, by decide, by decide, by decide,
   (c3_validation_amended "image/png" 0 false).2.2 (by decide) (by decide) rfl⟩

/-- Claim C4: in every upsampling stage the upsampled tensor is padded by two
amounts that are symmetric up to one — with the extra row/column on the
trailing edge when the difference is odd — and sum to the full difference to
its skip-connection partner, so the two tensors have identical spatial size
before concatenation; consequently for every input of at least 16×16
(multiples of 16 or not) the forward pass reaches the output with no shape
mismatch at any concatenation, returning a 3-channel tensor of the input's
spatial size. -/
theorem c4_padding_alignment :
    (∀ d : Int, 0 ≤ d →
      (padPair d).1 ≤ (padPair d).2
      ∧ (padPair d).2 ≤ (padPair d).1 + 1
      ∧ (padPair d).1 + (padPair d).2 = d
      ∧ (d % 2 = 1 → (padPair d).2 = (padPair d).1 + 1))
    ∧ (∀ h w : Nat, 16 ≤ h → 16 ≤ w →
      unet_forward_shape ⟨1, h, w⟩ = some ⟨3, h, w⟩) := by
  constructor
  · intro d hd
    have hfe : d.fdiv 2 = d / 2 := Int.fdiv_eq_ediv d (by norm_num)
    simp only [padPair, hfe]
    omega
  · exact fun h w hh hw => unet_forward_shape_eval h w hh hw

/-- Witness for C4 at odd difference 1 and at the 250×250 input, whose
dimensions are not multiples of 16. -/
theorem c4_padding_alignment_witness :
    ((0 : Int) ≤ 1)
    ∧ ((padPair 1).1 ≤ (padPair 1).2
       ∧ (padPair 1).2 ≤ (padPair 1).1 + 1
       ∧ (padPair 1).1 + (padPair 1).2 = 1
       ∧ ((1 : Int) % 2 = 1 → (padPair 1).2 = (padPair 1).1 + 1))
    ∧ ((16 : Nat) ≤ 250)
    ∧ unet_forward_shape ⟨1, 250, 250⟩ = some ⟨3, 250, 250⟩ :=
  ⟨by decide, c4_padding_alignment.1 1 (by decide), by decide,
   c4_padding_alignment.2 250 250 (by decide) (by decide)⟩

/-- Claim C5: for every readable image (any positive resolution), the full
pipeline — decode to a `[1,1,256,256]` tensor, forward pass, encode — yields
a buffer of spatial resolution exactly 256×256 with exactly 3 channels at
8 bits per channel. -/
theorem c5_pipeline_shape (img : GrayImage) (hh : 1 ≤ img.h) (hw : 1 ≤ img.w) :
    colorize_shape (some img) = .ok (256, 256, 3, DType.uint8) := by
  have hne : ¬ (img.h = 0 ∨ img.w = 0) := by omega
  simp [colorize_shape, preprocess_image, postprocess_output_shape, hne,
    unet_forward_shape_eval 256 256 (by norm_num) (by norm_num)]

/-- Witness for C5 at a concrete 100×100 solid-gray image. -/
theorem c5_pipeline_shape_witness :
    (1 ≤ (⟨100, 100, fun _ _ => 128⟩ : GrayImage).h)
    ∧ colorize_shape (some ⟨100, 100, fun _ _ => 128⟩)
        = .ok (256, 256, 3, DType.uint8) :=
  ⟨by decide, c5_pipeline_shape ⟨100, 100, fun _ _ => 128⟩ (by decide) (by decide)⟩

/-- Claim C6, counterexample: the resize step of `preprocess_image` runs with
OpenCV's default interpolation flag, bilinear (`INTER_LINEAR`) — not the
area-preserving `INTER_AREA` the claim states. -/
theorem c6_decode_counterexample :
    ((preprocess_image (some ⟨100, 100, fun _ _ => 128⟩)).toOption.map
      (fun t => t.resizeInterp)) = some Interp.linear
    ∧ Interp.linear ≠ Interp.area :=
  ⟨rfl, by decide⟩

/-- Claim C6, amended: `preprocess_image` reads the file as single-channel
grayscale, resizes it to the fixed 256×256 input resolution using `cv2`'s
DEFAULT bilinear interpolation (not area-preserving), scales intensity to
`[0,1]` as 32-bit floating point, adds batch and channel dimensions
(yielding shape `[1,1,256,256]`), and raises (`ValueError`) when the file
cannot be read or is not a valid raster image. -/
theorem c6_decode_amended (img : GrayImage) (hb : ∀ i j, img.pix i j ≤ 255)
    (hh : 1 ≤ img.h) (hw : 1 ≤ img.w) :
    (∃ t, preprocess_image (some img) = .ok t
      ∧ t.batch = 1 ∧ t.channels = 1 ∧ t.h = 256 ∧ t.w = 256
      ∧ t.dtype = DType.float32
      ∧ t.resizeInterp = cv2_resize_default
      ∧ cv2_resize_default = Interp.linear
      ∧ ∀ i j, 0 ≤ t.val i j ∧ t.val i j ≤ 1)
    ∧ (∃ msg, preprocess_image none = .error msg) := by
  have hne : ¬ (img.h = 0 ∨ img.w = 0) := by omega
  constructor
  · refine ⟨{ batch := 1, channels := 1, h := 256, w := 256,
              dtype := DType.float32,
              val := fun i j => (((cv2_resize img (256, 256)).1.pix i j : ℚ) / 255),
              resizeInterp := (cv2_resize img (256, 256)).2 },
      ?_, rfl, rfl, rfl, rfl, rfl, rfl, rfl, ?_⟩
    · simp only [preprocess_image]
      rw [if_neg hne]
    · intro i j
      have hpix : (cv2_resize img (256, 256)).1.pix i j
          = img.pix (i * img.h / 256) (j * img.w / 256) := rfl
      constructor
      · exact div_nonneg (Nat.cast_nonneg _) (by norm_num)
      · rw [div_le_one (by norm_num), hpix]
        exact_mod_cast hb (i * img.h / 256) (j * img.w / 256)
  · exact ⟨_, rfl⟩

/-- Witness for the amended C6 at a concrete 100×100 solid-gray image. -/
theorem c6_decode_amended_witness :
    (∀ i j, (⟨100, 100, fun _ _ => 128⟩ : GrayImage).pix i j ≤ 255)
    ∧ ((∃ t, preprocess_image (some ⟨100, 100, fun _ _ => 128⟩) = .ok t
        ∧ t.batch = 1 ∧ t.channels = 1 ∧ t.h = 256 ∧ t.w = 256
        ∧ t.dtype = DType.float32
        ∧ t.resizeInterp = cv2_resize_default
        ∧ cv2_resize_default = Interp.linear
        ∧ ∀ i j, 0 ≤ t.val i j ∧ t.val i j ≤ 1)
      ∧ (∃ msg, preprocess_image none = .error msg)) :=
  ⟨fun _ _ => by norm_num,
   c6_decode_amended ⟨100, 100, fun _ _ => 128⟩ (fun _ _ => by norm_num)
     (by decide) (by decide)⟩

/-- Claim C7: for every filesystem state and every job id — submitted or
not — when the output artifact is absent, `status` answers `PROCESSING` with
the fixed placeholder progress 50 (never a not-found error) and `fetch`
fails with 404; when the artifact is present, `status` answers `COMPLETED`
with progress 100 and `fetch` succeeds; and `fetch` fails with 404 exactly
when the artifact is absent. -/
theorem c7_status_fetch (fs : String → Bool) (file_id : String) :
    (fs (checked_output_path file_id) = false →
      get_progress fs file_id = ⟨JobStatus.processing, 50⟩
      ∧ download_result fs file_id = .error 404)
    ∧ (fs (checked_output_path file_id) = true →
      get_progress fs file_id = ⟨JobStatus.completed, 100⟩
      ∧ download_result fs file_id = .ok (checked_output_path file_id))
    ∧ (download_result fs file_id = .error 404
        ↔ fs (checked_output_path file_id) = false) := by
  cases hfs : fs (checked_output_path file_id) <;>
    simp [get_progress, download_result, hfs]

/-- Witness for C7 on the empty filesystem with a never-submitted id. -/
theorem c7_status_fetch_witness :
    ((fun _ => false : String → Bool) (checked_output_path "nonexistent-id") = false)
    ∧ (get_progress (fun _ => false) "nonexistent-id" = ⟨JobStatus.processing, 50⟩
       ∧ download_result (fun _ => false) "nonexistent-id" = .error 404) :=
  ⟨rfl, (c7_status_fetch (fun _ => false) "nonexistent-id").1 rfl⟩

/-- Claim C8: when the scheduled colorization work raises, the background
task catches it and only appends to the log — the filesystem is unchanged,
no output artifact or failure marker is written, nothing propagates (the
task returns normally), and `status` keeps answering `PROCESSING`, exactly
as for a still-running job. -/
theorem c8_background_failure (fs log : List String) (file_id output_path e : String)
    (save_ok : Bool) (hout : fsContains fs (checked_output_path file_id) = false) :
    (process_colorization fs log file_id output_path (.error e) save_ok).1 = fs
    ∧ (process_colorization fs log file_id output_path (.error e) save_ok).2
        = log ++ ["Error in background colorization for " ++ file_id ++ ": " ++ e]
    ∧ get_progress
        (fsContains (process_colorization fs log file_id output_path (.error e) save_ok).1)
        file_id = ⟨JobStatus.processing, 50⟩
    ∧ get_progress
        (fsContains (process_colorization fs log file_id output_path (.error e) save_ok).1)
        file_id = get_progress (fsContains fs) file_id := by
  simp [process_colorization, get_progress, hout]

/-- Witness for C8 at a concrete failing job on an empty filesystem. -/
theorem c8_background_failure_witness :
    fsContains [] (checked_output_path "j") = false
    ∧ ((process_colorization [] [] "j" "outputs/j_output.jpg" (.error "decode failed") true).1 = []
       ∧ (process_colorization [] [] "j" "outputs/j_output.jpg" (.error "decode failed") true).2
           = [] ++ ["Error in background colorization for " ++ "j" ++ ": " ++ "decode failed"]
       ∧ get_progress
           (fsContains (process_colorization [] [] "j" "outputs/j_output.jpg"
             (.error "decode failed") true).1) "j" = ⟨JobStatus.processing, 50⟩
       ∧ get_progress
           (fsContains (process_colorization [] [] "j" "outputs/j_output.jpg"
             (.error "decode failed") true).1) "j"
           = get_progress (fsContains []) "j") :=
  ⟨by decide, c8_background_failure [] [] "j" "outputs/j_output.jpg" "decode failed" true (by decide)⟩

/-- Claim C9, counterexample: `UNetColorizer.colorize` performs no memory-
release operation at all — `clear_memory` does not occur in its operation
sequence, so no memory-release cycle runs before or after its inference
call. -/
theorem c9_memory_cycle_counterexample : MemEv.clearMemory ∉ colorize_events := by
  decide

/-- Claim C9, amended: `colorize` itself runs preprocess, inference and
postprocess with no memory-release cycle; the memory-release cycle exists
only in `MemoryOptimizer.process_image_optimized` (which `colorize` does not
call), where `clear_memory` runs immediately before moving the tensor to the
device and immediately after inference, and that cycle does not change the
result — the returned value is exactly the model applied to the
(batch-completed) input. -/
theorem c9_memory_cycle_amended {α : Type} (dim : α → Nat) (unsq : α → α)
    (model : α → α) (t : α) :
    colorize_events = [MemEv.preprocess, MemEv.inference, MemEv.postprocess]
    ∧ MemEv.clearMemory ∉ colorize_events
    ∧ (process_image_optimized dim unsq model t).2
        = [MemEv.clearMemory, MemEv.toDevice, MemEv.inference, MemEv.clearMemory]
    ∧ (process_image_optimized dim unsq model t).1
        = model (if dim t = 3 then unsq t else t)
    ∧ clear_memory_events "cpu" = [MemEv.clearMemory]
    ∧ clear_memory_events "cuda" = [MemEv.clearMemory, MemEv.clearMemory] :=
  ⟨rfl, by decide, rfl, rfl, by decide, by decide⟩

/-- Claim C10: `status` and `fetch` check the path obtained by joining the
outputs directory with the unsanitized `{file_id}_output.jpg`; for the
file id `../secret` the checked path resolves outside the outputs directory,
so on a filesystem whose only file is the root-level `secret_output.jpg`
(not a job artifact), `status` reports `COMPLETED` and `fetch` serves the
file. -/
theorem c10_path_traversal :
    (∀ file_id : String,
      checked_output_path file_id = OUTPUT_DIR ++ "/" ++ file_id ++ "_output.jpg")
    ∧ checked_output_path "../secret" = "outputs/../secret_output.jpg"
    ∧ resolvePath (checked_output_path "../secret") = ["secret_output.jpg"]
    ∧ withinDir OUTPUT_DIR (checked_output_path "../secret") = false
    ∧ get_progress (realFS [["secret_output.jpg"]]) "../secret"
        = ⟨JobStatus.completed, 100⟩
    ∧ download_result (realFS [["secret_output.jpg"]]) "../secret"
        = .ok (checked_output_path "../secret") :=
  ⟨fun _ => rfl, by decide, by decide, by decide, by decide, rfl⟩
